import Mathlib

/-
  Verification development for src/Logging.js (rmmv-logging).

  Shallow embedding conventions:
  - JS numbers that hold log levels are modelled as Int.
  - JS `undefined` flowing through level variables is modelled as the
    `none` case of `Option Int`.
  - A JS `throw` is modelled as the `Except.error` case of `Except String _`.
  - Side effects (handler writes, console stream calls, file appends) are
    modelled as explicit traces / state transformers.
-/

-- ===========================================================================
-- LogLevel constants (src/Logging.js lines 76-81)
-- ===========================================================================

namespace LogLevel

def DEBUG : Int := 10

def INFO : Int := 20

def WARN : Int := 30

def WARNING : Int := WARN

def ERROR : Int := 40

def ALL : Int := 0

end LogLevel

/-- Embeds `_levelToName` (src/Logging.js lines 83-100): an if/else-if chain
comparing the numeric level against the LogLevel constants in source order
(ALL, DEBUG, ERROR, INFO, WARN); the fall-through `throw Error(...)` is the
`Except.error` case. -/
def _levelToName (level : Int) : Except String String :=
  if level = LogLevel.ALL then Except.ok "ALL"
  else if level = LogLevel.DEBUG then Except.ok "DEBUG"
  else if level = LogLevel.ERROR then Except.ok "ERROR"
  else if level = LogLevel.INFO then Except.ok "INFO"
  else if level = LogLevel.WARN then Except.ok "WARN"
  else Except.error ("Unknown level: " ++ toString level)

/-- Embeds `_nameToLevel` (src/Logging.js lines 102-112): a JS object-literal
lookup `map[level]`. A key that is absent yields JS `undefined`, modelled as
`none`; no error is ever raised by this function. -/
def _nameToLevel (s : String) : Option Int :=
  if s = "ALL" then some LogLevel.ALL
  else if s = "DEBUG" then some LogLevel.DEBUG
  else if s = "ERROR" then some LogLevel.ERROR
  else if s = "INFO" then some LogLevel.INFO
  else if s = "WARN" then some LogLevel.WARN
  else if s = "WARNING" then some LogLevel.WARNING
  else none

/-- A JS value arriving at `_checkLevel`: a number, a string, or anything
else (boolean, null, undefined, object, ... — every value whose `typeof` is
neither "number" nor "string"). -/
inductive JSValue where
  | num (n : Int)
  | str (s : String)
  | other
deriving DecidableEq

/-- Embeds `_checkLevel` (src/Logging.js lines 114-126): numbers pass through
unchanged, strings are delegated to `_nameToLevel` (whose result may be the
JS `undefined`, i.e. `none`), anything else throws. -/
def _checkLevel : JSValue → Except String (Option Int)
  | JSValue.num n => Except.ok (some n)
  | JSValue.str s => Except.ok (_nameToLevel s)
  | JSValue.other => Except.error "Level unrecognized."

-- ===========================================================================
-- Logger (src/Logging.js lines 178-221)
-- ===========================================================================

/-- The format string `logging_log_format` (src/Logging.js line 169). -/
def logging_log_format : String := "%s [%s] - %s"

/-- `Logging.Format`, assigned `logging_log_format` during bootstrap
(src/Logging.js line 338); `Logger.prototype.log` formats with it. -/
def Logging_Format : String := logging_log_format

/-- Embeds node's `util.format` restricted to `%s` substitution, which is all
the source uses: each `%s` in the format string consumes the next argument. -/
def util_format : List Char → List String → String
  | [], _ => ""
  | '%' :: 's' :: rest, a :: args => a ++ util_format rest args
  | c :: rest, args => c.toString ++ util_format rest args

/-- Logger state (src/Logging.js lines 182-186): an ordered handler list, a
(unused) per-logger format string, and the threshold level. The threshold is
`Option Int` because `setLevel` can store the JS `undefined` returned by
`_nameToLevel` for an unrecognized name. The handler type is abstract: the
Logger only ever forwards a formatted string to each handler. -/
structure Logger (H : Type) where
  handlers : List H
  format : String
  level : Option Int
deriving DecidableEq

/-- Embeds `Logger.prototype.initialize` (src/Logging.js lines 182-186):
`_handlers = []`, `format = ""`, `level = LogLevel.INFO`. -/
def Logger.init {H : Type} : Logger H :=
  { handlers := [], format := "", level := some LogLevel.INFO }

/-- Embeds `Logger.prototype.addHandler` (src/Logging.js lines 188-190):
push appends at the end. -/
def Logger.addHandler {H : Type} (lg : Logger H) (h : H) : Logger H :=
  { lg with handlers := lg.handlers ++ [h] }

/-- Embeds `Logger.prototype.setLevel` (src/Logging.js lines 192-194):
`this.level = _checkLevel(level)`; a throw from `_checkLevel` propagates. -/
def Logger.setLevel {H : Type} (lg : Logger H) (v : JSValue) : Except String (Logger H) :=
  (_checkLevel v).map (fun rv => { lg with level := rv })

/-- The JS comparison `this.level <= level` where `this.level` may be
`undefined`: `undefined <= n` is false for every number `n`. -/
def jsLE : Option Int → Int → Bool
  | some t, l => decide (t ≤ l)
  | none, _ => false

/-- Embeds `Logger.prototype.log` (src/Logging.js lines 196-205). The result
is the trace of handler `write` invocations, in handler-list order, each
carrying the one formatted string; the gate `this.level <= level` guards
everything, so a suppressed call yields the empty trace without ever calling
`_levelToName` or `util.format`. A throw from `_levelToName` (unknown level)
is the `Except.error` case. The source invokes `handler.write(formatted)`
with a single argument — no level is forwarded. -/
def Logger.log {H : Type} (lg : Logger H) (level : Int) (message : String)
    (timestamp : String) : Except String (List (H × String)) :=
  if jsLE lg.level level then do
    let nm ← _levelToName level
    let formatted := util_format Logging_Format.data [timestamp, nm, message]
    return lg.handlers.map (fun h => (h, formatted))
  else return []

-- ===========================================================================
-- ConsoleHandler (src/Logging.js lines 243-266)
-- ===========================================================================

/-- One call on a console stream method. -/
inductive ConsoleOp where
  | debug (m : String)
  | info (m : String)
  | warn (m : String)
  | error (m : String)
  | log (m : String)
deriving DecidableEq

/-- Embeds `ConsoleHandler.prototype.write` (src/Logging.js lines 258-266),
returning the trace of console stream calls. The `level` parameter is
`Option Int`: when the caller passes no second argument it is the JS
`undefined` (`none`), and every `level === LogLevel.X` comparison is false. -/
def ConsoleHandler.write (ready : Bool) (message : String) (level : Option Int) :
    List ConsoleOp :=
  if ready then
    (if level = some LogLevel.DEBUG then [ConsoleOp.debug message]
     else if level = some LogLevel.INFO then [ConsoleOp.info message]
     else if level = some LogLevel.WARN then [ConsoleOp.warn message]
     else if level = some LogLevel.ERROR then [ConsoleOp.error message]
     else [])
    ++ [ConsoleOp.log message]
  else []

/-- A `Logger` with a single ready-or-not `ConsoleHandler` attached, dispatching
one `log` call: `Logger.prototype.log` invokes `handler.write(formatted)` with
one argument (src/Logging.js line 202), so inside `ConsoleHandler.write` the
`level` parameter is the JS `undefined`, i.e. `none`. The result is the trace
of console stream calls. -/
def logThroughConsole (lgLevel : Option Int) (ready : Bool) (level : Int)
    (message : String) (timestamp : String) : Except String (List ConsoleOp) := do
  let trace ← Logger.log
    ({ handlers := [()], format := "", level := lgLevel } : Logger Unit)
    level message timestamp
  return (trace.map (fun t => ConsoleHandler.write ready t.2 none)).flatten

-- ===========================================================================
-- FileStreamHandler (src/Logging.js lines 275-320)
-- ===========================================================================

/-- Embeds `FileStreamHandler.prototype.write` (src/Logging.js lines 304-320)
as a transformer of the log file contents: if the readiness flag is false the
file is untouched (no buffering, no error); if it is true, the buffer
`message + "\n"` is appended. -/
def FileStreamHandler.write (ready : Bool) (file : String) (message : String) : String :=
  if ready then file ++ message ++ "\n" else file

-- ===========================================================================
-- Plugin parameters and createLogger (src/Logging.js lines 163-168, 369-383)
-- ===========================================================================

/-- JS `v || d` where `v` is a possibly-absent string parameter: an absent
parameter is `undefined` (falsy) and the empty string is the only falsy
string. -/
def jsOrStr : Option String → String → String
  | some v, d => if v = "" then d else v
  | none, d => d

/-- JS `Boolean(s)` on a string: true exactly when the string is nonempty. -/
def jsBooleanStr (s : String) : Bool := s ≠ ""

/-- Embeds `logging_enable_console_logger` (src/Logging.js line 164):
`Boolean(parameters["Enable Console Logger"] || "true")`. -/
def logging_enable_console_logger (p : Option String) : Bool :=
  jsBooleanStr (jsOrStr p "true")

/-- Embeds `logging_enable_file_logger` (src/Logging.js line 165):
`Boolean(parameters["Enable File Logger"] || "true")`. -/
def logging_enable_file_logger (p : Option String) : Bool :=
  jsBooleanStr (jsOrStr p "true")

/-- The two concrete handler kinds `createLogger` can attach. -/
inductive Handler where
  | console
  | file
deriving DecidableEq

/-- Embeds `createLogger` (src/Logging.js lines 369-383): build a fresh
Logger, set its level (a throw propagates), then attach a ConsoleHandler
and/or a FileStreamHandler according to the two enable flags computed from
the plugin parameters. -/
def createLogger (consoleParam fileParam : Option String) (level : JSValue) :
    Except String (Logger Handler) := do
  let logger ← Logger.setLevel Logger.init level
  let logger :=
    if logging_enable_console_logger consoleParam
    then logger.addHandler Handler.console else logger
  let logger :=
    if logging_enable_file_logger fileParam
    then logger.addHandler Handler.file else logger
  return logger

-- ===========================================================================
-- resolveToLocalPath (src/Logging.js lines 400-403)
-- ===========================================================================

/-- The character class `[\/\\]` of the source regex. -/
def isSep (c : Char) : Bool := c = '/' || c = '\\'

/-- What the regex metacharacter `.` matches (no /s flag): any character
except the four line terminators. -/
def isRegexDot (c : Char) : Bool :=
  !(c = '\n' || c = '\r' || c = ' ' || c = ' ')

/-- Matches the tail `(.+?)[\/\\]?` of the source pattern at the head of the
input. The lazy `(.+?)` is followed only by an optional separator and the end
of the pattern, which never fail, so it always captures exactly one character;
the greedy trailing `[\/\\]?` then consumes one following separator if
present. Returns (capture group, rest of input). -/
def matchCD : List Char → Option (List Char × List Char)
  | [] => none
  | c :: cs =>
    if isRegexDot c then
      match cs with
      | d :: ds => if isSep d then some ([c], ds) else some ([c], cs)
      | [] => some ([c], [])
    else none

/-- Matches `[\/\\]+?` (lazy) followed by `(.+?)[\/\\]?`: consume one
separator and try the tail; on failure extend the lazy `+` one separator at a
time. -/
def matchSepsCD : List Char → Option (List Char × List Char)
  | [] => none
  | c :: cs =>
    if isSep c then
      match matchCD cs with
      | some r => some r
      | none => matchSepsCD cs
    else none

/-- Matches `.+` (greedy, trying the longest prefix first) followed by
`[\/\\]+?(.+?)[\/\\]?`: the counter enumerates candidate `.+` lengths from
`n` down to 1. -/
def tryDotPlus : Nat → List Char → Option (List Char × List Char)
  | 0, _ => none
  | n + 1, cs =>
    match
      (if n + 1 ≤ cs.length then
        if (cs.take (n + 1)).all isRegexDot then matchSepsCD (cs.drop (n + 1))
        else none
      else none) with
    | some r => some r
    | none => tryDotPlus n cs

/-- Matches the optional group `(?:.+[\/\\]+?)?` (greedy: presence preferred)
followed by the tail `(.+?)[\/\\]?`. -/
def matchB_CD (cs : List Char) : Option (List Char × List Char) :=
  match tryDotPlus cs.length cs with
  | some r => some r
  | none => matchCD cs

/-- Attempts the whole pattern `[\/\\]?(?:.+[\/\\]+?)?(.+?)[\/\\]?` at the
head of the input, honouring backtracking preference order: the leading
optional separator prefers to match, falling back to empty if the remainder
fails. Returns (capture group 1, rest of input after the match). -/
def matchP : List Char → Option (List Char × List Char)
  | [] => none
  | c :: cs =>
    if isSep c then
      match matchB_CD cs with
      | some r => some r
      | none => matchB_CD (c :: cs)
    else matchB_CD (c :: cs)

/-- The global `replace(pattern, "$1")` driver: scan left to right; where the
pattern matches, emit capture group 1 and resume after the match; where it
does not, copy one character. Every match consumes at least one character
(the `(.+?)` group), so fuel equal to the input length suffices. -/
def replaceAllFuel : Nat → List Char → List Char
  | 0, cs => cs
  | _, [] => []
  | f + 1, c :: cs =>
    match matchP (c :: cs) with
    | some (g, rest) => g ++ replaceAllFuel f rest
    | none => c :: replaceAllFuel f cs

/-- Embeds `resolveToLocalPath` (src/Logging.js lines 400-403):
`filePath.replace(/[\/\\]?(?:.+[\/\\]+?)?(.+?)[\/\\]?/g, "$1")`. -/
def resolveToLocalPath (filePath : String) : String :=
  (replaceAllFuel filePath.length filePath.data).asString

/-- Separator-splitting worker for `segments`: accumulates the current
segment in reverse. -/
def segmentsAux : List Char → List Char → List String
  | [], acc => [acc.reverse.asString]
  | c :: cs, acc =>
    if isSep c then acc.reverse.asString :: segmentsAux cs []
    else segmentsAux cs (c :: acc)

/-- Splits a string at path separators (structurally, so that it evaluates
by reduction). -/
def segments (s : String) : List String := segmentsAux s.data []

/-- Modelled from the spec: the "final path segment" of a path string — the
last nonempty run of non-separator characters ("reduces the input to its
final path segment"). Used only to compare `resolveToLocalPath` against the
spec's description of it. -/
def finalSegment_spec (s : String) : String :=
  (((segments s).filter (fun t => t ≠ "")).reverse).headD ""

-- ===========================================================================
-- Helper lemmas
-- ===========================================================================

theorem fileWrite_foldl_join (file : String) (msgs : List String) :
    msgs.foldl (FileStreamHandler.write true) file
      = file ++ String.join (msgs.map (fun m => m ++ "\n")) := by
  induction msgs generalizing file with
  | nil =>
    show file = file ++ String.join []
    simp [String.join]
  | cons m ms ih =>
    rw [List.foldl_cons, ih]
    apply String.ext
    simp [FileStreamHandler.write]

theorem foldl_addHandler {H : Type} (base : Logger H) (hs : List H) :
    hs.foldl Logger.addHandler base
      = { base with handlers := base.handlers ++ hs } := by
  induction hs generalizing base with
  | nil => simp
  | cons h t ih =>
    simp only [List.foldl_cons, ih, Logger.addHandler, List.append_assoc,
      List.singleton_append]

-- ===========================================================================
-- Claims
-- ===========================================================================

/-- C1: a log call whose numeric level is strictly below the Logger's numeric
threshold is a complete no-op: the handler-write trace is empty and the call
succeeds without formatting (the result is the else-branch value, produced
without evaluating `_levelToName` or `util_format`, for every level,
recognized or not). -/
theorem log_below_threshold_noop {H : Type} (lg : Logger H) (t level : Int)
    (message timestamp : String) (hl : lg.level = some t) (hlt : level < t) :
    Logger.log lg level message timestamp = Except.ok [] := by
  have hgate : jsLE lg.level level = false := by
    rw [hl]; simp [jsLE]; omega
  simp [Logger.log, hgate]
  rfl

theorem log_below_threshold_noop_witness :
    Logger.log ({ handlers := [0], format := "", level := some 20 } : Logger Nat)
      10 "y" "T" = Except.ok [] :=
  log_below_threshold_noop _ 20 10 "y" "T" rfl (by decide)

/-- C2: when the threshold gate passes, the message is formatted once with
the fixed template and every handler added via `addHandler` receives exactly
that one string, in insertion order. -/
theorem log_fanout_insertion_order {H : Type} (base : Logger H) (hs : List H)
    (t level : Int) (nm message timestamp : String)
    (hb : base.handlers = []) (hl : base.level = some t)
    (hle : t ≤ level) (hn : _levelToName level = Except.ok nm) :
    Logger.log (hs.foldl Logger.addHandler base) level message timestamp
      = Except.ok (hs.map (fun h =>
          (h, util_format Logging_Format.data [timestamp, nm, message]))) := by
  rw [foldl_addHandler]
  have hgate : jsLE (some t) level = true := by simp [jsLE, hle]
  simp [Logger.log, hgate, hl, hb, hn]

theorem log_fanout_insertion_order_witness :
    Logger.log (([1, 2] : List Nat).foldl Logger.addHandler Logger.init)
      20 "y" "T"
      = Except.ok [(1, "T [INFO] - y"), (2, "T [INFO] - y")] :=
  log_fanout_insertion_order (Logger.init : Logger Nat) [1, 2] 20 20 "INFO"
    "y" "T" rfl rfl (by decide) rfl

/-- C3: the dispatch path evaluated at the failing input. With threshold INFO
and a ready ConsoleHandler attached, `log(LogLevel.INFO, "y")` produces only
the generic `console.log` call — no `console.info` — because
`Logger.prototype.log` invokes `handler.write(formatted)` without the level
argument, so every `level === LogLevel.X` test in `ConsoleHandler.write`
compares against `undefined`. The second conjunct shows the handler would
route if it were given the level, exhibiting the divergence. -/
theorem consoleSink_no_level_routing :
    logThroughConsole (some LogLevel.INFO) true LogLevel.INFO "y" "T"
        = Except.ok [ConsoleOp.log "T [INFO] - y"] ∧
    ConsoleHandler.write true "T [INFO] - y" (some LogLevel.INFO)
        = [ConsoleOp.info "T [INFO] - y", ConsoleOp.log "T [INFO] - y"] :=
  ⟨rfl, rfl⟩

/-- C4: on the five recognized ranks, `_levelToName` followed by
`_nameToLevel` is the identity; `_levelToName` throws on every other rank;
both WARN and WARNING map to 30; and the canonical name of 30 is WARN. -/
theorem levelName_roundtrip (r : Int) :
    ((r = 0 ∨ r = 10 ∨ r = 20 ∨ r = 30 ∨ r = 40) →
        ∃ nm, _levelToName r = Except.ok nm ∧ _nameToLevel nm = some r) ∧
    (r ≠ 0 → r ≠ 10 → r ≠ 20 → r ≠ 30 → r ≠ 40 →
        _levelToName r = Except.error ("Unknown level: " ++ toString r)) ∧
    _nameToLevel "WARN" = some 30 ∧ _nameToLevel "WARNING" = some 30 ∧
    _levelToName 30 = Except.ok "WARN" := by
  refine ⟨?_, ?_, rfl, rfl, rfl⟩
  · rintro (rfl | rfl | rfl | rfl | rfl)
    exacts [⟨"ALL", rfl, rfl⟩, ⟨"DEBUG", rfl, rfl⟩, ⟨"INFO", rfl, rfl⟩,
      ⟨"WARN", rfl, rfl⟩, ⟨"ERROR", rfl, rfl⟩]
  · intro h0 h10 h20 h30 h40
    simp [_levelToName, LogLevel.ALL, LogLevel.DEBUG, LogLevel.ERROR,
      LogLevel.INFO, LogLevel.WARN, h0, h10, h20, h30, h40]

theorem levelName_roundtrip_witness :
    (∃ nm, _levelToName 30 = Except.ok nm ∧ _nameToLevel nm = some 30) ∧
    _levelToName 7 = Except.error ("Unknown level: " ++ toString (7 : Int)) :=
  ⟨(levelName_roundtrip 30).1 (by decide),
   (levelName_roundtrip 7).2.1 (by decide) (by decide) (by decide) (by decide)
     (by decide)⟩

/-- C5: a FileStreamHandler whose readiness flag is false leaves the file
untouched on `write` (silent no-op, no buffering, no error); when the flag is
true each `write` appends exactly the message followed by one newline, so a
sequence of accepted writes appends one newline-terminated record per call. -/
theorem fileSink_write_behavior (ready : Bool) (file message : String)
    (msgs : List String) :
    (ready = false → FileStreamHandler.write ready file message = file) ∧
    (ready = true →
        FileStreamHandler.write ready file message = file ++ message ++ "\n") ∧
    (ready = true → msgs.foldl (FileStreamHandler.write true) file
        = file ++ String.join (msgs.map (fun m => m ++ "\n"))) := by
  refine ⟨fun h => by simp [FileStreamHandler.write, h],
    fun h => by simp [FileStreamHandler.write, h],
    fun _ => fileWrite_foldl_join file msgs⟩

theorem fileSink_write_behavior_witness :
    FileStreamHandler.write false "F" "m" = "F" ∧
    FileStreamHandler.write true "F" "m" = "F" ++ "m" ++ "\n" ∧
    ["a", "b"].foldl (FileStreamHandler.write true) ""
      = "" ++ String.join (["a", "b"].map (fun m => m ++ "\n")) :=
  ⟨(fileSink_write_behavior false "F" "m" []).1 rfl,
   (fileSink_write_behavior true "F" "m" []).2.1 rfl,
   (fileSink_write_behavior true "" "m" ["a", "b"]).2.2 rfl⟩

/-- C6 counterexample: the input "a/b//" contains path separators, yet
`resolveToLocalPath` does not reduce it to its final path segment "b": the
result is "/", a bare separator (an absolute-path component). -/
theorem resolveToLocalPath_counterexample :
    resolveToLocalPath "a/b//" = "/" ∧ finalSegment_spec "a/b//" = "b" ∧
    resolveToLocalPath "a/b//" ≠ finalSegment_spec "a/b//" :=
  ⟨rfl, rfl, by decide⟩

/-- C6 (amended): `resolveToLocalPath` maps each of the three cited example
inputs to its final path segment. -/
theorem resolveToLocalPath_examples :
    resolveToLocalPath "../../etc" = "etc" ∧
    resolveToLocalPath "a/b/../c" = "c" ∧
    resolveToLocalPath "../secret/logs" = "logs" :=
  ⟨rfl, rfl, rfl⟩

/-- C7 counterexample: an unrecognized name does not fail: `_nameToLevel`
returns the JS `undefined` (`none`) and the validation gate `_checkLevel`
succeeds with that value — no error of any kind is raised. -/
theorem nameToLevel_unknown_returns_undefined :
    _nameToLevel "BOGUS" = none ∧
    _checkLevel (JSValue.str "BOGUS") = Except.ok none :=
  ⟨rfl, rfl⟩

/-- C7 (amended): for each of the six recognized names (case-sensitively)
`_nameToLevel` returns the corresponding numeric rank; for every other
string it returns `undefined` (`none`) without raising any error. -/
theorem nameToLevel_amended (s : String) :
    (s = "ALL" → _nameToLevel s = some 0) ∧
    (s = "DEBUG" → _nameToLevel s = some 10) ∧
    (s = "INFO" → _nameToLevel s = some 20) ∧
    (s = "WARN" → _nameToLevel s = some 30) ∧
    (s = "WARNING" → _nameToLevel s = some 30) ∧
    (s = "ERROR" → _nameToLevel s = some 40) ∧
    (s ≠ "ALL" → s ≠ "DEBUG" → s ≠ "INFO" → s ≠ "WARN" → s ≠ "WARNING" →
      s ≠ "ERROR" → _nameToLevel s = none) := by
  refine ⟨fun h => by subst h; rfl, fun h => by subst h; rfl,
    fun h => by subst h; rfl, fun h => by subst h; rfl,
    fun h => by subst h; rfl, fun h => by subst h; rfl, ?_⟩
  intro h1 h2 h3 h4 h5 h6
  simp [_nameToLevel, h1, h2, h3, h4, h5, h6]

theorem nameToLevel_amended_witness :
    _nameToLevel "WARN" = some 30 ∧ _nameToLevel "XYZ" = none :=
  ⟨(nameToLevel_amended "WARN").2.2.2.1 rfl,
   (nameToLevel_amended "XYZ").2.2.2.2.2.2 (by decide) (by decide) (by decide)
     (by decide) (by decide) (by decide)⟩

/-- C8: the validation gate `_checkLevel` passes a number through unchanged,
delegates a string to `_nameToLevel`, and throws for every value that is
neither a number nor a string. -/
theorem checkLevel_gate :
    (∀ n : Int, _checkLevel (JSValue.num n) = Except.ok (some n)) ∧
    (∀ s : String, _checkLevel (JSValue.str s) = Except.ok (_nameToLevel s)) ∧
    _checkLevel JSValue.other = Except.error "Level unrecognized." :=
  ⟨fun _ => rfl, fun _ => rfl, rfl⟩

/-- C9: `setLevel` with an unrecognized name string succeeds (no error) and
stores the JS `undefined` as the threshold; every subsequent log call at any
numeric level then yields the empty handler trace, because
`undefined <= level` is false — the Logger is silently muted. -/
theorem setLevel_unknown_string_mutes {H : Type} (lg : Logger H) (s : String)
    (h1 : s ≠ "ALL") (h2 : s ≠ "DEBUG") (h3 : s ≠ "ERROR") (h4 : s ≠ "INFO")
    (h5 : s ≠ "WARN") (h6 : s ≠ "WARNING") (level : Int)
    (message timestamp : String) :
    ∃ lg', Logger.setLevel lg (JSValue.str s) = Except.ok lg' ∧
      lg'.level = none ∧
      Logger.log lg' level message timestamp = Except.ok [] := by
  have hn : _nameToLevel s = none := by
    simp [_nameToLevel, h1, h2, h3, h4, h5, h6]
  refine ⟨{ lg with level := none }, ?_, rfl, ?_⟩
  · simp [Logger.setLevel, _checkLevel, hn, Except.map]
  · simp [Logger.log, jsLE]
    rfl

theorem setLevel_unknown_string_mutes_witness :
    ∃ lg', Logger.setLevel (Logger.init : Logger Nat) (JSValue.str "VERBOSE")
        = Except.ok lg' ∧
      lg'.level = none ∧ Logger.log lg' 40 "y" "T" = Except.ok [] :=
  setLevel_unknown_string_mutes Logger.init "VERBOSE" (by decide) (by decide)
    (by decide) (by decide) (by decide) (by decide) 40 "y" "T"

/-- C10: for every configured string value of the two enable parameters
(including "false", "0" and the empty string) and for an absent parameter,
the computed enable flag is true, so whenever `createLogger` returns a
Logger it has attached exactly a ConsoleHandler followed by a
FileStreamHandler — the flags can never disable either sink. -/
theorem enable_flags_force_both_handlers (cp fp : Option String) (lv : JSValue) :
    logging_enable_console_logger cp = true ∧
    logging_enable_file_logger fp = true ∧
    ∀ lg, createLogger cp fp lv = Except.ok lg →
      lg.handlers = [Handler.console, Handler.file] := by
  have flag : ∀ p : Option String, jsBooleanStr (jsOrStr p "true") = true := by
    intro p
    cases p with
    | none => rfl
    | some v =>
      by_cases h : v = "" <;> simp [jsOrStr, jsBooleanStr, h]
  refine ⟨flag cp, flag fp, ?_⟩
  intro lg hlg
  cases hcl : _checkLevel lv with
  | error e =>
    simp [createLogger, Logger.setLevel, hcl, Except.map] at hlg
  | ok rv =>
    simp [createLogger, Logger.setLevel, hcl, Except.map,
      logging_enable_console_logger, logging_enable_file_logger, flag,
      Logger.addHandler, Logger.init] at hlg
    subst hlg
    rfl

theorem enable_flags_force_both_handlers_witness :
    logging_enable_console_logger (some "false") = true ∧
    logging_enable_file_logger (some "0") = true ∧
    ∃ lg, createLogger (some "false") (some "0") (JSValue.str "INFO")
        = Except.ok lg ∧ lg.handlers = [Handler.console, Handler.file] := by
  refine ⟨(enable_flags_force_both_handlers (some "false") (some "0")
      (JSValue.str "INFO")).1,
    (enable_flags_force_both_handlers (some "false") (some "0")
      (JSValue.str "INFO")).2.1, ?_⟩
  exact ⟨_, rfl, (enable_flags_force_both_handlers (some "false") (some "0")
      (JSValue.str "INFO")).2.2 _ rfl⟩
